import Mathlib

/-!
Verification of `descent/proximal_operators.py` (repository vishalbelsare/descent).

The file shallowly embeds the proximal-operator module: points are lists or
matrices of rationals, Python exceptions are an error type threaded through
`Except`, and the two base-class methods that are declared without a `self`
parameter are modelled through an explicit arity check on bound method calls
(Python inserts the instance as the first argument of a bound call; a body
declared with `k` parameters raises `TypeError` when it receives more).
External backends (scipy minimize, scikit-image denoising, sparse solve) are
modelled as explicit function parameters or as the linear relation they satisfy.
-/

/-- Python values that flow through the module: numeric arrays (1-D, rationals),
the `None` value, the `np.nan` sentinel, and plain numbers. -/
inductive PyVal where
  | arr (v : List ℚ)
  | num (q : ℚ)
  | nan
  | none
deriving DecidableEq, Repr

/-- Python exceptions raised in `proximal_operators.py`. -/
inductive PyError where
  | notImplemented
  | typeErr
  | assertionErr (msg : String)
  | valueErr
  | importErr
deriving DecidableEq, Repr

/-- Source lines 18-19: the module export list `__all__`, which `_getproxop`
also uses as its registry of valid operator names.  `semidefinite_cone` is
absent from it. -/
def proxOpAll : List String :=
  ["nucnorm", "sparse", "nonneg", "linsys", "squared_error",
   "lbfgs", "tvd", "smooth", "ProximalOperator"]

/-- The identifier handed to `_getproxop`: a callable object (identified by a
tag), a string, or a value of any other type. -/
inductive PyIdent where
  | callable (fid : Nat)
  | str (s : String)
  | other
deriving DecidableEq, Repr

/-- What `_getproxop` returns on success: `partial(name, *args, **kwargs)` for
a callable (a bound callable), or a constructed instance of the class named in
the registry. -/
inductive Resolved where
  | bound (fid : Nat) (args : List PyVal)
  | instOf (className : String) (args : List PyVal)
deriving DecidableEq, Repr

/-- Source lines 22-48, `_getproxop`: a callable is bound to the supplied
arguments; a string is asserted to be in `__all__` and the named class is
constructed; anything else raises `ValueError`. -/
def getproxop : PyIdent → List PyVal → Except PyError Resolved
  | .callable fid, args => .ok (.bound fid args)
  | .str s, args =>
      if s ∈ proxOpAll then .ok (.instOf s args)
      else .error (.assertionErr (s ++ " is not a valid operator!"))
  | .other, _ => .error .valueErr

/-- A Python function body declared with `arity` parameters, invoked on an
argument list: a mismatched argument count raises `TypeError` before the body
runs. -/
def callWithArity (arity : Nat) (body : List PyVal → Except PyError PyVal)
    (args : List PyVal) : Except PyError PyVal :=
  if args.length = arity then body args else .error .typeErr

namespace ProximalOperator

/-- Source lines 56-57: the body of the base class method
`def __call__(x0, rho): raise NotImplementedError`. -/
def call_body (_args : List PyVal) : Except PyError PyVal :=
  .error .notImplemented

/-- A bound call `instance(x0, rho)` on a base-class instance: Python passes
the instance plus the two arguments to a function declared with only the two
parameters `x0, rho` (no `self` in the source), so three arguments meet
arity two. -/
def call_bound (self x0 rho : PyVal) : Except PyError PyVal :=
  callWithArity 2 call_body [self, x0, rho]

/-- Source lines 59-60: the body of the base class method
`def objective(theta): return np.nan`. -/
def objective_body (_args : List PyVal) : Except PyError PyVal :=
  .ok .nan

/-- A bound call `instance.objective(theta)`: the instance plus one argument
meet a function declared with the single parameter `theta` (no `self`). -/
def objective_bound (self theta : PyVal) : Except PyError PyVal :=
  callWithArity 1 objective_body [self, theta]

/-- Source lines 62-63: `def apply(self, v, rho): self.__call__(v, rho)` —
the body evaluates the call expression and falls off the end without a
`return` statement, so a successful call yields `None`. -/
def apply (call : List ℚ → ℚ → Except PyError PyVal) (v : List ℚ) (rho : ℚ) :
    Except PyError PyVal := do
  let _ ← call v rho
  return PyVal.none

end ProximalOperator

namespace sparse

/-- Source lines 117-131, `sparse.__call__`: with `lmbda = penalty / rho`,
returns `(v - lmbda) * (v >= lmbda) + (v + lmbda) * (v <= -lmbda)`
elementwise, numpy booleans acting as 0/1 factors. -/
def call (penalty : ℚ) (v : List ℚ) (rho : ℚ) : List ℚ :=
  let lmbda := penalty / rho
  v.map fun x =>
    (x - lmbda) * (if lmbda ≤ x then 1 else 0) +
    (x + lmbda) * (if x ≤ -lmbda then 1 else 0)

end sparse

namespace tvd

/-- Source lines 282-308, `tvd.__call__`: tries to import the scikit-image
denoiser; on `ImportError` it prints a message and returns `x0` unchanged;
otherwise it returns `denoise_tv_bregman(x0, rho / gamma)`.  The availability
of the backend and the external denoiser are explicit parameters. -/
def call (gamma : ℚ) (skimageAvailable : Bool)
    (denoise : List ℚ → ℚ → List ℚ) (x0 : List ℚ) (rho : ℚ) :
    Except PyError PyVal :=
  if skimageAvailable then .ok (.arr (denoise x0 (rho / gamma)))
  else .ok (.arr x0)

/-- `tvd` defines no `objective`, so attribute lookup finds the base-class
function and a bound call goes through it. -/
def objective : PyVal → PyVal → Except PyError PyVal :=
  ProximalOperator.objective_bound

end tvd

namespace semidefinite_cone

/-- `semidefinite_cone` defines no `objective`; as for `tvd`, a bound call
lands on the inherited base-class function. -/
def objective : PyVal → PyVal → Except PyError PyVal :=
  ProximalOperator.objective_bound

end semidefinite_cone

/-- Elementwise difference of two equal-length arrays (numpy `-`). -/
def arrSub (a b : List ℚ) : List ℚ :=
  List.zipWith (fun x y => x - y) a b

/-- Elementwise sum of two equal-length arrays (numpy `+`). -/
def arrAdd (a b : List ℚ) : List ℚ :=
  List.zipWith (fun x y => x + y) a b

/-- Scalar times array (numpy broadcasting). -/
def arrScale (c : ℚ) (a : List ℚ) : List ℚ :=
  a.map fun x => c * x

/-- Squared Euclidean norm of an array: `np.linalg.norm(a) ** 2`. -/
def sqnorm (a : List ℚ) : ℚ :=
  (a.map fun x => x * x).sum

/-- The instance state of the `lbfgs` class (source lines 243-266).  The
construction-time fields are `f_df` and `numiter`; the attributes `v` and
`rho` do not exist until `__call__` assigns them, hence the `Option` type. -/
structure lbfgs where
  f_df : List ℚ → ℚ × List ℚ
  numiter : ℚ
  v : Option (List ℚ)
  rho : Option ℚ

namespace lbfgs

/-- Source lines 245-247, `lbfgs.__init__`: stores `f_df` and `numiter`
(source default 20.); the attributes `v` and `rho` are not assigned. -/
def init (f_df : List ℚ → ℚ × List ℚ) (numiter : ℚ) : lbfgs :=
  ⟨f_df, numiter, Option.none, Option.none⟩

/-- Source lines 249-253, `lbfgs.f_df_augmented`: reads `self.v` and
`self.rho` (set by `__call__`) and returns the augmented objective
`f + (rho/2) * norm(theta - v) ** 2` and gradient `df + rho * (theta - v)`. -/
def f_df_augmented (self : lbfgs) (theta : List ℚ) : ℚ × List ℚ :=
  let v := self.v.getD []
  let rho := self.rho.getD 0
  let fd := self.f_df theta
  (fd.1 + (rho / 2) * sqnorm (arrSub theta v),
   arrAdd fd.2 (arrScale rho (arrSub theta v)))

/-- Source lines 255-263, `lbfgs.__call__`: assigns `self.v = x0.copy()` and
`self.rho = rho` on the instance, then runs the external scipy L-BFGS-B
minimizer on `self.f_df_augmented` from `x0` and returns its result.  The
minimizer is an explicit parameter; the updated instance is returned alongside
the result to make the attribute assignments observable. -/
def call (minimize : (List ℚ → ℚ × List ℚ) → List ℚ → List ℚ)
    (self : lbfgs) (x0 : List ℚ) (rho : ℚ) : lbfgs × List ℚ :=
  let s : lbfgs := ⟨self.f_df, self.numiter, some x0, some rho⟩
  (s, minimize (f_df_augmented s) x0)

end lbfgs

/-- A concrete caller-supplied objective/gradient pair used as a test input:
value 0, gradient equal to the parameters. -/
def f_df_zero : List ℚ → ℚ × List ℚ := fun theta => (0, theta)

/-- A concrete stand-in for the external minimizer used as a test input: it
returns the starting point. -/
def min_id : (List ℚ → ℚ × List ℚ) → List ℚ → List ℚ := fun _ x0 => x0

/-- Source line 328: the banded matrix
`spdiags([(2 + rho/gamma)*ones, -ones, -ones], [0, -1, 1], n, n)` —
diagonal entries `2 + rho/gamma`, first sub- and super-diagonal `-1`. -/
def lap_op (n : Nat) (rho gamma : ℚ) : Matrix (Fin n) (Fin n) ℚ :=
  Matrix.of fun i j =>
    if (i : Nat) = (j : Nat) then 2 + rho / gamma
    else if (i : Nat) + 1 = (j : Nat) ∨ (j : Nat) + 1 = (i : Nat) then -1
    else 0

namespace smooth

/-- Source line 330 for a matrix input with the target axis leading: the value
`y` returned by `spsolve(gamma * lap_op, rho * x0)` is characterized by the
linear system it solves, column by column:
`(gamma * lap_op) @ y = rho * x0`. -/
def solves (n m : Nat) (gamma rho : ℚ)
    (x0 y : Matrix (Fin n) (Fin m) ℚ) : Prop :=
  (gamma • lap_op n rho gamma) * y = rho • x0

/-- Modelled from the claim wording, for comparison with `smooth.solves`: the
returned point solves the tridiagonal system itself against the rotated
input, `lap_op @ y = x0`, with no scaling by `gamma` or `rho`. -/
def claimSolves (n m : Nat) (gamma rho : ℚ)
    (x0 y : Matrix (Fin n) (Fin m) ℚ) : Prop :=
  lap_op n rho gamma * y = x0

end smooth

/-! ## Claims -/

/-- C1: the contract method `apply(point, weight)` is claimed to return the
mapped point.  In the source (lines 62-63) the body `self.__call__(v, rho)`
has no `return` statement, so whenever the underlying mapping succeeds,
`apply` returns `None` instead of the mapped point. -/
theorem C1_apply_discards_result (call : List ℚ → ℚ → Except PyError PyVal)
    (v : List ℚ) (rho : ℚ) (val : PyVal) (h : call v rho = .ok val) :
    ProximalOperator.apply call v rho = .ok PyVal.none := by
  unfold ProximalOperator.apply
  rw [h]
  rfl

/-- C1 witness: the missing return evaluated at the spec scenario input,
`sparse(penalty=2).apply([5, -5, 1, -1], 4)`, yields `None` rather than the
mapped array. -/
theorem C1_witness :
    ProximalOperator.apply
      (fun w r => .ok (.arr (sparse.call 2 w r))) [5, -5, 1, -1] 4
      = .ok PyVal.none ∧
    PyVal.none ≠ PyVal.arr (sparse.call 2 [5, -5, 1, -1] 4) := by
  refine ⟨?_, by simp⟩
  exact C1_apply_discards_result
    (fun w r => (.ok (.arr (sparse.call 2 w r)) : Except PyError PyVal))
    [5, -5, 1, -1] 4 (.arr (sparse.call 2 [5, -5, 1, -1] 4)) rfl

/-- C2: when the scikit-image backend is unavailable, `tvd.__call__`
(source lines 302-306) catches the `ImportError`, prints a message, and
returns the input `x0` unchanged — the silent identity fallback the spec
disallows, and contrary to the docstring of the very method, which announces
`Raises ImportError`. -/
theorem C2_tvd_silent_identity_fallback (gamma : ℚ)
    (denoise : List ℚ → ℚ → List ℚ) (x0 : List ℚ) (rho : ℚ) :
    tvd.call gamma false denoise x0 rho = .ok (.arr x0) ∧
    ∀ e : PyError, tvd.call gamma false denoise x0 rho ≠ .error e := by
  exact ⟨rfl, fun e h => by simp [tvd.call] at h⟩

/-- C3: `tvd` and `semidefinite_cone` inherit the base class `objective`,
declared `def objective(theta)` with no `self` parameter (source lines 59-60);
a bound call `instance.objective(point)` therefore passes two arguments to a
one-parameter function and raises `TypeError` instead of returning the
not-a-number sentinel. -/
theorem C3_inherited_objective_type_errors (self theta : PyVal) :
    tvd.objective self theta = .error .typeErr ∧
    semidefinite_cone.objective self theta = .error .typeErr ∧
    (.error .typeErr : Except PyError PyVal) ≠ .ok .nan := by
  exact ⟨rfl, rfl, by simp⟩

/-- C10: the string `ProximalOperator` is in the registry `__all__`, so the
factory constructs an instance of the abstract base class without a
configuration error; but calling that instance does not reach the
`raise NotImplementedError` body — since `def __call__(x0, rho)` lacks
`self`, the bound call raises `TypeError` on argument count. -/
theorem C10_base_class_resolution_and_call :
    getproxop (.str "ProximalOperator") []
      = .ok (.instOf "ProximalOperator" []) ∧
    (∀ self x0 rho : PyVal,
      ProximalOperator.call_bound self x0 rho = .error .typeErr) ∧
    (.error .typeErr : Except PyError PyVal) ≠ .error .notImplemented := by
  refine ⟨rfl, fun self x0 rho => rfl, by simp⟩

/-- C4 counterexample: `semidefinite_cone` is a class of the module but its
name is missing from `__all__`, so the factory rejects it with the assertion
error instead of constructing an instance. -/
theorem C4_counterexample :
    getproxop (.str "semidefinite_cone") []
      = .error (.assertionErr ("semidefinite_cone" ++ " is not a valid operator!")) := by
  rfl

/-- C4 (amended): for each of the eight variant names present in the registry
`__all__` — all of the nine built-in variants except `semidefinite_cone` —
the factory accepts the name and constructs an instance of that variant with
the given arguments. -/
theorem C4_registered_names_construct (s : String)
    (h : s ∈ ["nucnorm", "sparse", "nonneg", "linsys", "squared_error",
              "lbfgs", "tvd", "smooth"])
    (args : List PyVal) :
    getproxop (.str s) args = .ok (.instOf s args) := by
  fin_cases h <;> rfl

/-- C4 witness: the registered name `nucnorm` resolves to an instance. -/
theorem C4_witness :
    "nucnorm" ∈ ["nucnorm", "sparse", "nonneg", "linsys", "squared_error",
                 "lbfgs", "tvd", "smooth"] ∧
    getproxop (.str "nucnorm") [] = .ok (.instOf "nucnorm" []) :=
  ⟨by decide, C4_registered_names_construct "nucnorm" (by decide) []⟩

/-- C5: factory resolution semantics — an unregistered string fails at
resolution time with the assertion (configuration) error, a non-string
non-callable identifier fails at resolution time with `ValueError`, and a
callable identifier is bound to the supplied arguments and returned. -/
theorem C5_resolution_semantics (s : String) (hs : s ∉ proxOpAll)
    (fid : Nat) (args : List PyVal) :
    getproxop (.str s) args
      = .error (.assertionErr (s ++ " is not a valid operator!")) ∧
    getproxop .other args = .error .valueErr ∧
    getproxop (.callable fid) args = .ok (.bound fid args) := by
  refine ⟨?_, rfl, rfl⟩
  simp only [getproxop, if_neg hs]

/-- C5 witness: the unregistered name `tvd2` fails at resolution with the
configuration error, while a callable is bound. -/
theorem C5_witness :
    "tvd2" ∉ proxOpAll ∧
    (getproxop (.str "tvd2") []
       = .error (.assertionErr ("tvd2" ++ " is not a valid operator!")) ∧
     getproxop .other [] = .error .valueErr ∧
     getproxop (.callable 0) [] = .ok (.bound 0 [])) :=
  ⟨by decide, C5_resolution_semantics "tvd2" (by decide) 0 []⟩

/-- C6 counterexample: `sparse(penalty=2)` applied to `[5, -5, 1, -1]` with
weight 4 has threshold `2/4 = 1/2`, so the entries `1` and `-1` lie outside
the threshold band and shrink to `1/2` and `-1/2`; the output is not the
`[4.5, -4.5, 0, 0]` the spec scenario expects. -/
theorem C6_counterexample :
    sparse.call 2 [5, -5, 1, -1] 4 ≠ [9/2, -9/2, 0, 0] := by
  norm_num [sparse.call]

/-- C6 (amended): `sparse(penalty=2)` applied to `[5, -5, 1, -1]` with weight
4 returns exactly `[4.5, -4.5, 0.5, -0.5]`. -/
theorem C6_actual_output :
    sparse.call 2 [5, -5, 1, -1] 4 = [9/2, -9/2, 1/2, -1/2] := by
  norm_num [sparse.call]

/-- C7: with a non-negative penalty and positive weight, `sparse.__call__` is
elementwise soft-thresholding with threshold `penalty/weight`: entries above
the threshold shift down by it, entries below minus the threshold shift up by
it, entries within the band become zero; in particular `penalty=1`, `weight=1`
maps `[-3, -1/2, 0, 1/2, 3]` to `[-2, 0, 0, 0, 2]`. -/
theorem C7_sparse_soft_thresholding (penalty rho : ℚ)
    (hp : 0 ≤ penalty) (hr : 0 < rho) (v : List ℚ) :
    sparse.call penalty v rho =
      v.map (fun x =>
        if penalty / rho < x then x - penalty / rho
        else if x < -(penalty / rho) then x + penalty / rho
        else 0) ∧
    sparse.call 1 [-3, -1/2, 0, 1/2, 3] 1 = [-2, 0, 0, 0, 2] := by
  constructor
  · have ht : 0 ≤ penalty / rho := div_nonneg hp hr.le
    simp only [sparse.call]
    refine congrFun (congrArg List.map ?_) v
    funext x
    generalize hgen : penalty / rho = t at ht ⊢
    split_ifs <;> ring_nf <;> linarith
  · norm_num [sparse.call]

/-- C7 witness: the theorem instantiated at `penalty=1`, `weight=1` and the
fixed example vector. -/
theorem C7_witness :
    (0 ≤ (1:ℚ)) ∧ (0 < (1:ℚ)) ∧
    (sparse.call 1 [-3, -1/2, 0, 1/2, 3] 1 =
      [(-3:ℚ), -1/2, 0, 1/2, 3].map (fun x =>
        if (1:ℚ) / 1 < x then x - 1 / 1
        else if x < -((1:ℚ) / 1) then x + 1 / 1
        else 0) ∧
     sparse.call 1 [-3, -1/2, 0, 1/2, 3] 1 = [-2, 0, 0, 0, 2]) :=
  ⟨by norm_num, by norm_num,
   C7_sparse_soft_thresholding 1 1 (by norm_num) (by norm_num)
     [-3, -1/2, 0, 1/2, 3]⟩

/-- C8 counterexample: `lbfgs.__call__` (source lines 257-258) assigns the
per-call reference point and weight to the instance fields `self.v` and
`self.rho`; after one call on a fresh instance those fields are observably
changed from unset to the call arguments. -/
theorem C8_counterexample :
    ((lbfgs.call min_id (lbfgs.init f_df_zero 20) [1] 2).1).v = some [1] ∧
    ((lbfgs.call min_id (lbfgs.init f_df_zero 20) [1] 2).1).rho = some 2 ∧
    ((lbfgs.call min_id (lbfgs.init f_df_zero 20) [1] 2).1).v ≠
      (lbfgs.init f_df_zero 20).v := by
  refine ⟨rfl, rfl, by simp [lbfgs.call, lbfgs.init]⟩

/-- C8 (amended): for the `lbfgs` variant, `apply` stores the per-call
reference point and weight as the instance fields `self.v` and `self.rho`;
after the call they hold exactly the call arguments (each subsequent call
overwrites them), while the construction-time fields are unchanged. -/
theorem C8_lbfgs_stores_call_state
    (minimize : (List ℚ → ℚ × List ℚ) → List ℚ → List ℚ)
    (self : lbfgs) (x0 : List ℚ) (rho : ℚ) :
    ((lbfgs.call minimize self x0 rho).1).v = some x0 ∧
    ((lbfgs.call minimize self x0 rho).1).rho = some rho ∧
    ((lbfgs.call minimize self x0 rho).1).f_df = self.f_df ∧
    ((lbfgs.call minimize self x0 rho).1).numiter = self.numiter :=
  ⟨rfl, rfl, rfl, rfl⟩

/-- C9 counterexample: take `gamma = 1`, `weight = 2`, a 1x1 input `[[1]]`.
The code solves `spsolve(gamma * lap_op, rho * x0)`, whose solution is
`[[1/2]]` (since the 1x1 matrix is `[[2 + 2/1]] = [[4]]` and
`4 * (1/2) = 2 * 1`); but `[[1/2]]` is not the solution of the claimed
system `lap_op @ y = x0`, which would be `[[1/4]]`. -/
theorem C9_counterexample :
    smooth.solves 1 1 1 2
      (Matrix.of fun _ _ => (1:ℚ)) (Matrix.of fun _ _ => (1:ℚ)/2) ∧
    ¬ smooth.claimSolves 1 1 1 2
      (Matrix.of fun _ _ => (1:ℚ)) (Matrix.of fun _ _ => (1:ℚ)/2) := by
  constructor
  · unfold smooth.solves lap_op
    ext i j
    fin_cases i
    fin_cases j
    simp [Matrix.mul_apply, Fin.sum_univ_one]
    norm_num
  · unfold smooth.claimSolves lap_op
    intro h
    have h' := congrFun (congrFun h 0) 0
    simp [Matrix.mul_apply, Fin.sum_univ_one] at h'
    norm_num at h'

/-- C9 (amended): with the target axis leading, `smooth.__call__` builds the
tridiagonal matrix with diagonal `2 + weight/gamma` and off-diagonals `-1`,
and the point it returns solves the scaled system
`(gamma * lap_op) y = weight * input` — equivalently
`lap_op y = (weight/gamma) * input` — not the unscaled system
`lap_op y = input`. -/
theorem C9_smooth_solves_scaled_system (n m : Nat) (gamma rho : ℚ)
    (hg : gamma ≠ 0) (x0 y : Matrix (Fin n) (Fin m) ℚ) :
    smooth.solves n m gamma rho x0 y ↔
      lap_op n rho gamma * y = (rho / gamma) • x0 := by
  unfold smooth.solves
  rw [Matrix.smul_mul]
  constructor
  · intro h
    ext i j
    have h' := congrFun (congrFun h i) j
    simp [Matrix.smul_apply, smul_eq_mul] at h' ⊢
    field_simp
    linarith [h']
  · intro h
    ext i j
    have h' := congrFun (congrFun h i) j
    simp [Matrix.smul_apply, smul_eq_mul] at h' ⊢
    rw [h']
    field_simp

/-- C9 witness: the amended equivalence instantiated at the concrete
counterexample dimensions and weights. -/
theorem C9_witness :
    ((1:ℚ) ≠ 0) ∧
    (smooth.solves 1 1 1 2
        (Matrix.of fun _ _ => (1:ℚ)) (Matrix.of fun _ _ => (1:ℚ)/2) ↔
      lap_op 1 2 1 * (Matrix.of fun _ _ => (1:ℚ)/2)
        = ((2:ℚ)/1) • (Matrix.of fun _ _ => (1:ℚ))) :=
  ⟨by norm_num,
   C9_smooth_solves_scaled_system 1 1 1 2 (by norm_num)
     (Matrix.of fun _ _ => (1:ℚ)) (Matrix.of fun _ _ => (1:ℚ)/2)⟩
